import Mathlib

/-
Verification of the CKB chain actor (src/ckb/actor.rs) of the cfn-node
payment-channel node.  The actor's message handlers are shallowly embedded
as pure Lean functions; blocking RPC calls and reply-channel states are
passed in as explicit inputs, and the observable effects of a handler
(reply sends, RPC calls, sleeps) are returned as an explicit event list.
External collaborators (the secp256k1 library, the blake2b hash, the
contract-script table, the funding fulfillment and signing contracts) are
abstracted as parameters, exactly as they appear at the call sites.
-/

/-- Transaction hashes (`packed::Byte32`) are modelled as identifiers. -/
abbrev Byte32 := Nat

/-- A decoded on-chain transaction view (`ckb_jsonrpc_types::TransactionView`),
opaque to the actor. -/
abbrev Tx := Nat

/-- A lock script (`packed::Script`), opaque to the actor. -/
abbrev Script := Nat

/-- A secp256k1 secret key, opaque to the actor. -/
abbrev SecretKey := Nat

/-- A serialized secp256k1 public key byte, and hash digest bytes. -/
abbrev Byte := Nat

/-- A secp256k1 public key, opaque to the actor. -/
abbrev PubKey := Nat

/-- Error from reading the secret key at startup. -/
abbrev KeyError := String

/-- Error from decoding a transaction body (`ResponseFormatGetter::get_value`). -/
abbrev DecodeErr := String

/-- Business-logic failure from funding construction or signing. -/
abbrev FundingError := String

/-- `ractor::ActorProcessingErr`: the error type of the `handle` method. -/
abbrev ActorProcessingErr := String

deriving instance DecidableEq for Except

/-- `ckb_sdk::RpcError`: either a structured JSON-RPC error carrying a numeric
code and a message (`RpcError::Rpc`), or any other failure (transport, etc.). -/
inductive RpcError
  | rpc (code : Int) (message : String)
  | other (desc : String)
deriving DecidableEq, Repr

/-- `ckb_jsonrpc_types::Status`: the chain's view of a transaction. -/
inductive Status
  | pending
  | proposed
  | committed
  | unknown
  | rejected
deriving DecidableEq, Repr

/-- `ckb_jsonrpc_types::TxStatus`: status plus, when committed, the block
number. -/
structure TxStatus where
  status : Status
  block_number : Option Nat
deriving DecidableEq, Repr

/-- The response of `get_only_committed_transaction`: a transaction status and
an optional (possibly undecodable) transaction body. `transaction` models
`resp.transaction.map (fun x => x.get_value ())`: when present, decoding may
fail. -/
structure GetTxResponse where
  tx_status : TxStatus
  transaction : Option (Except DecodeErr Tx)
deriving DecidableEq, Repr

/-- `TraceTxResponse`: an optional transaction view and the chain status. -/
structure TraceTxResponse where
  tx : Option Tx
  status : TxStatus
deriving DecidableEq, Repr

/-- `TraceTxResponse::new`. -/
def TraceTxResponse.new (tx : Option Tx) (status : TxStatus) : TraceTxResponse :=
  { tx := tx, status := status }

/-- Modelled from the spec: `FundingTx` (src/ckb/funding/funding_tx.rs is not
present under src/); only its transaction identifier is relevant to the
exclusion set, per section 4.4 ("keyed by transaction/funding identifier"). -/
structure FundingTx where
  tx_hash : Byte32
deriving DecidableEq, Repr

/-- Modelled from the spec: `FundingExclusion`
(src/ckb/funding/funding_exclusion.rs is not present under src/); section 4.4
describes a plain mutable set keyed by transaction identifier whose only
mutators, `insert` and `remove`, are idempotent. -/
structure FundingExclusion where
  txs : Finset Byte32
deriving DecidableEq

/-- Modelled from the spec: inserting an already-present id is a no-op;
`AddTxs` "inserts each transaction's identifier into the exclusion set". -/
def FundingExclusion.insert (ex : FundingExclusion) (tx : FundingTx) : FundingExclusion :=
  ⟨Insert.insert tx.tx_hash ex.txs⟩

/-- Modelled from the spec: removing an absent id is a no-op. -/
def FundingExclusion.remove (ex : FundingExclusion) (tx_hash : Byte32) : FundingExclusion :=
  ⟨ex.txs.erase tx_hash⟩

/-- Membership query on the exclusion set. -/
def FundingExclusion.contains (ex : FundingExclusion) (tx_hash : Byte32) : Bool :=
  decide (tx_hash ∈ ex.txs)

/-- `Default::default()` for the exclusion set: empty. -/
def FundingExclusion.empty : FundingExclusion := ⟨∅⟩

/-- `CkbConfig`: the RPC endpoint URL and the (fallible) secret-key
materialization `read_secret_key`, whose outcome is modelled as data. -/
structure CkbConfig where
  rpc_url : String
  read_secret_key : Except KeyError SecretKey
deriving DecidableEq

/-- `CkbChainState`: the actor's owned state. -/
structure CkbChainState where
  config : CkbConfig
  secret_key : SecretKey
  funding_source_lock_script : Script
  funding_exclusion : FundingExclusion
deriving DecidableEq

/-- `Contract` (from src/ckb/contracts.rs, external to the examined core):
only the standard signature lock is referenced by the actor. -/
inductive Contract
  | Secp256k1Lock
deriving DecidableEq, Repr

/-- The external cryptographic and contract-table operations used by
`pre_start`, abstracted as parameters: `secret_key.public_key`,
`pub_key.serialize`, `ckb_hash::blake2b_256`, and `get_script_by_contract`. -/
structure CryptoOps where
  public_key : SecretKey → PubKey
  serialize : PubKey → List Byte
  blake2b_256 : List Byte → List Byte
  get_script_by_contract : Contract → List Byte → Script

/-- `CkbChainActor::pre_start`: read the secret key (propagating failure),
derive the funding-source lock script from the blake2b-256 hash of the
serialized public key truncated to its first 20 bytes
(`&pub_key_hash[0..20]`), and build the initial state with an empty
exclusion set. -/
def pre_start (ops : CryptoOps) (config : CkbConfig) : Except KeyError CkbChainState :=
  match config.read_secret_key with
  | .error e => .error e
  | .ok secret_key =>
    let pub_key := ops.public_key secret_key
    let pub_key_hash := ops.blake2b_256 (ops.serialize pub_key)
    let funding_source_lock_script :=
      ops.get_script_by_contract Contract.Secp256k1Lock (pub_key_hash.take 20)
    .ok { config := config
          secret_key := secret_key
          funding_source_lock_script := funding_source_lock_script
          funding_exclusion := FundingExclusion.empty }

/-- `FundingRequest`: the caller's ask; only the destination lock script is
read by the actor, the remaining parameters are opaque to it. -/
structure FundingRequest where
  script : Script
deriving DecidableEq, Repr

/-- `FundingContext`: the ephemeral bundle handed to the fulfillment
contract. -/
structure FundingContext where
  secret_key : SecretKey
  rpc_url : String
  funding_source_lock_script : Script
  funding_cell_lock_script : Script
deriving DecidableEq, Repr

/-- `CkbChainState::build_funding_context`. -/
def build_funding_context (st : CkbChainState) (request : FundingRequest) : FundingContext :=
  { secret_key := st.secret_key
    rpc_url := st.config.rpc_url
    funding_source_lock_script := st.funding_source_lock_script
    funding_cell_lock_script := request.script }

/-- Observable effects of the `GetCurrentBlockNumber` arm. -/
inductive BlockNumberEvent
  | sent (result : Except RpcError Nat)
deriving DecidableEq, Repr

/-- The `GetCurrentBlockNumber` arm of `handle`: forwards the tip-number RPC
result through the reply channel.  The source performs the send
unconditionally (`let _ = reply.send(result)`): the channel state `_closed`
is never consulted, and the send error is discarded. -/
def handleGetCurrentBlockNumber (_closed : Bool) (get_tip_block_number : Except RpcError Nat) :
    List BlockNumberEvent × Except ActorProcessingErr Unit :=
  let result := get_tip_block_number
  ([BlockNumberEvent.sent result], .ok ())

/-- Observable effects of the `Fund` arm. -/
inductive FundEvent
  | fulfillCalled
  | sent (result : Except FundingError FundingTx)
deriving DecidableEq, Repr

/-- The `Fund` arm of `handle`: build the context, then, when the reply port
is open, run the fulfillment contract against the exclusion set (mutating
it) and, when the port is still open, send the result (error discarded).
`closed1` and `closed2` are the two `reply_port.is_closed()` observations;
`fulfill` is the external fulfillment contract `tx.fulfill(request, context,
&mut exclusion)`, returning the result together with the updated exclusion
set. -/
def handleFund (closed1 closed2 : Bool)
    (fulfill : FundingTx → FundingRequest → FundingContext → FundingExclusion →
      Except FundingError FundingTx × FundingExclusion)
    (st : CkbChainState) (tx : FundingTx) (request : FundingRequest) :
    CkbChainState × List FundEvent × Except ActorProcessingErr Unit :=
  let context := build_funding_context st request
  if closed1 then
    (st, [], .ok ())
  else
    let r := fulfill tx request context st.funding_exclusion
    let st' := { st with funding_exclusion := r.2 }
    if closed2 then (st', [FundEvent.fulfillCalled], .ok ())
    else (st', [FundEvent.fulfillCalled, FundEvent.sent r.1], .ok ())

/-- Observable effects of the `Sign` arm. -/
inductive SignEvent
  | signCalled
  | sent (result : Except FundingError FundingTx)
deriving DecidableEq, Repr

/-- The `Sign` arm of `handle`: when the reply port is open, run the signing
contract `tx.sign(secret_key, rpc_url)` with a copy of the key, and when the
port is still open, send the result (error discarded). -/
def handleSign (closed1 closed2 : Bool)
    (sign : FundingTx → SecretKey → String → Except FundingError FundingTx)
    (st : CkbChainState) (tx : FundingTx) :
    List SignEvent × Except ActorProcessingErr Unit :=
  if closed1 then ([], .ok ())
  else
    let secret_key := st.secret_key
    let rpc_url := st.config.rpc_url
    let result := sign tx secret_key rpc_url
    if closed2 then ([SignEvent.signCalled], .ok ())
    else ([SignEvent.signCalled, SignEvent.sent result], .ok ())

/-- The `AddTxs` arm of `handle`: insert each transaction into the exclusion
set in order. -/
def handleAddTxs (st : CkbChainState) (txs : List FundingTx) : CkbChainState :=
  { st with funding_exclusion := txs.foldl (fun ex tx => ex.insert tx) st.funding_exclusion }

/-- The `RemoveTx` arm of `handle`: remove the identifier from the exclusion
set. -/
def handleRemoveTx (st : CkbChainState) (tx_hash : Byte32) : CkbChainState :=
  { st with funding_exclusion := st.funding_exclusion.remove tx_hash }

/-- The error-code reclassification of the `SendTx` arm: a successful
submission yields `Ok(())`; an `RpcError::Rpc` whose code is `-1107` or
`-1111` ("already in pool" / duplicate) is reclassified as `Ok(())`; every
other error is returned unmodified. -/
def sendTxResult (send_transaction : Except RpcError Unit) : Except RpcError Unit :=
  match send_transaction with
  | .ok _ => .ok ()
  | .error err =>
    match err with
    | .rpc code _message =>
      if code = -1107 ∨ code = -1111 then .ok () else .error err
    | .other desc => .error (.other desc)

/-- Observable effects of the `SendTx` arm. -/
inductive SendTxEvent
  | sent (result : Except RpcError Unit)
deriving DecidableEq, Repr

/-- The `SendTx` arm of `handle`: compute the (reclassified) submission
result, then send it only when the reply port is open (error discarded). -/
def handleSendTx (closed : Bool) (send_transaction : Except RpcError Unit) :
    List SendTxEvent × Except ActorProcessingErr Unit :=
  let result := sendTxResult send_transaction
  (if closed then [] else [SendTxEvent.sent result], .ok ())

/-- The RPC calls a tracer iteration can perform. -/
inductive RpcCall
  | getOnlyCommittedTransaction
  | getTipBlockNumber
deriving DecidableEq, Repr

/-- The environment one iteration of the `TraceTx` loop runs against:
whether the reply port is closed at the `while` guard, the outcome the
status RPC would return, the outcome the tip-number RPC would return, and
whether the reply port is closed at the final pre-send check. -/
structure TraceIterEnv where
  closedAtTop : Bool
  pollResult : Except RpcError GetTxResponse
  tipResult : Except RpcError Nat
  closedAtSend : Bool
deriving DecidableEq, Repr

/-- `Option<Result>::transpose`, as applied to
`resp.transaction.map(|x| x.get_value())`. -/
def option_result_transpose : Option (Except DecodeErr Tx) → Except DecodeErr (Option Tx)
  | none => .ok none
  | some (.ok v) => .ok (some v)
  | some (.error e) => .error e

/-- The decoded transaction body of a status response, per the `match` in the
committed branch: `Ok(Some(tx))` yields the body, `Ok(None)` and decode
errors both yield none (the error is only logged). -/
def decodedTransaction (resp : GetTxResponse) : Option Tx :=
  match option_result_transpose resp.transaction with
  | .ok (some tx) => some tx
  | .ok none => none
  | .error _ => none

/-- One body of the `TraceTx` polling loop, after the `while` guard: the
status RPC, and in the `Committed` case the tip-number RPC.  Returns the
terminal response, if this iteration reached one (`None` means retry after
backoff), together with the list of RPC calls performed.  In the
`Committed` case the commit number defaults to `0` when the response
carries no block number (`unwrap_or_default`), and the iteration is
terminal exactly when `tip_number >= commit_number + confirmations`
(`.then_some(..)`). -/
def traceTxIter (confirmations : Nat) (env : TraceIterEnv) :
    Option TraceTxResponse × List RpcCall :=
  match env.pollResult with
  | .ok resp =>
    match resp.tx_status.status with
    | .committed =>
      match env.tipResult with
      | .ok tip_number =>
        let commit_number : Nat := resp.tx_status.block_number.getD 0
        let transaction : Option Tx := decodedTransaction resp
        (if tip_number ≥ commit_number + confirmations then
           some (TraceTxResponse.new transaction resp.tx_status)
         else none,
         [RpcCall.getOnlyCommittedTransaction, RpcCall.getTipBlockNumber])
      | .error _ =>
        (none, [RpcCall.getOnlyCommittedTransaction, RpcCall.getTipBlockNumber])
    | .rejected =>
      (some (TraceTxResponse.new none resp.tx_status),
       [RpcCall.getOnlyCommittedTransaction])
    | _ => (none, [RpcCall.getOnlyCommittedTransaction])
  | .error _ => (none, [RpcCall.getOnlyCommittedTransaction])

/-- Observable events of the `TraceTx` loop. -/
inductive TraceEvent
  | rpc (call : RpcCall)
  | send (resp : TraceTxResponse)
  | sleep
deriving DecidableEq, Repr

/-- How a run of the `TraceTx` loop ended: `cancelled` when the `while`
guard observed the closed reply port (no send), `returned sent` when a
terminal response was reached (`sent` records the response actually sent,
none when the port closed before the final check), and `stillPolling` when
the supplied environment list ran out with the loop still going. -/
inductive TraceOutcome
  | cancelled
  | returned (sent : Option TraceTxResponse)
  | stillPolling
deriving DecidableEq, Repr

/-- The `TraceTx` polling loop (`while !reply_port.is_closed()`), run
against a finite list of per-iteration environments: check the guard, run
the iteration body, and either send-and-return on a terminal response or
sleep the fixed backoff and continue.  Returns the event trace and the
outcome. -/
def traceTxLoop (confirmations : Nat) : List TraceIterEnv → List TraceEvent × TraceOutcome
  | [] => ([], .stillPolling)
  | env :: rest =>
    if env.closedAtTop then ([], .cancelled)
    else
      let iter := traceTxIter confirmations env
      let rpcEvents := iter.2.map TraceEvent.rpc
      match iter.1 with
      | some resp =>
        if env.closedAtSend then (rpcEvents, .returned none)
        else (rpcEvents ++ [TraceEvent.send resp], .returned (some resp))
      | none =>
        let r := traceTxLoop confirmations rest
        (rpcEvents ++ TraceEvent.sleep :: r.1, r.2)

/-- Claim C1: for every transaction submitted via SendTx, a successful
submission replies `Ok(())`; an RPC error whose numeric code is `-1107` or
`-1111` also replies `Ok(())`; any other RPC error — another code or a
non-structured failure — is replied exactly as received; and when the reply
channel is open the handler sends exactly this result. -/
theorem sendTx_error_code_classification
    (message desc : String) (code : Int)
    (h1 : code ≠ -1107) (h2 : code ≠ -1111) :
    sendTxResult (.ok ()) = .ok ()
    ∧ sendTxResult (.error (.rpc (-1107) message)) = .ok ()
    ∧ sendTxResult (.error (.rpc (-1111) message)) = .ok ()
    ∧ sendTxResult (.error (.rpc code message)) = .error (.rpc code message)
    ∧ sendTxResult (.error (.other desc)) = .error (.other desc)
    ∧ (∀ r : Except RpcError Unit,
        handleSendTx false r = ([SendTxEvent.sent (sendTxResult r)], .ok ())) := by
  refine ⟨rfl, by simp [sendTxResult], by simp [sendTxResult], ?_, rfl, fun r => rfl⟩
  simp [sendTxResult, h1, h2]

/-- Witness for C1 at the concrete code `42`. -/
theorem sendTx_error_code_classification_witness :
    sendTxResult (.error (.rpc 42 "m")) = .error (.rpc 42 "m") :=
  (sendTx_error_code_classification "m" "d" 42 (by decide) (by decide)).2.2.2.1

/-- Claim C7: for every transaction and every starting state, processing
`AddTxs([tx])` followed by `RemoveTx` of its identifier leaves the exclusion
set not containing that identifier. -/
theorem addTxs_then_removeTx_not_contained (st : CkbChainState) (tx : FundingTx) :
    (handleRemoveTx (handleAddTxs st [tx]) tx.tx_hash).funding_exclusion.contains
      tx.tx_hash = false := by
  simp [handleRemoveTx, handleAddTxs, FundingExclusion.insert, FundingExclusion.remove,
    FundingExclusion.contains]

/-- Claim C10: a `Fund` message whose reply channel is already closed at the
first check never invokes the fulfillment contract (the result does not
depend on `fulfill` and no `fulfillCalled` event is emitted) and leaves the
actor state — in particular the exclusion set — unchanged. -/
theorem fund_closed_channel_leaves_state_unchanged (closed2 : Bool)
    (fulfill : FundingTx → FundingRequest → FundingContext → FundingExclusion →
      Except FundingError FundingTx × FundingExclusion)
    (st : CkbChainState) (tx : FundingTx) (request : FundingRequest) :
    handleFund true closed2 fulfill st tx request = (st, [], .ok ()) := rfl

/-- Claim C5: whenever a status poll reports the transaction `Rejected`, the
tracer performs no tip-number fetch in that iteration, terminates on that
same iteration, and the response it sends carries no transaction body — for
every requested confirmation depth. -/
theorem traceTx_rejected_terminates_immediately (confirmations : Nat)
    (env : TraceIterEnv) (rest : List TraceIterEnv) (resp : GetTxResponse)
    (hTop : env.closedAtTop = false) (hSend : env.closedAtSend = false)
    (hPoll : env.pollResult = .ok resp)
    (hStatus : resp.tx_status.status = .rejected) :
    traceTxIter confirmations env =
      (some (TraceTxResponse.new none resp.tx_status),
       [RpcCall.getOnlyCommittedTransaction])
    ∧ traceTxLoop confirmations (env :: rest) =
        ([TraceEvent.rpc RpcCall.getOnlyCommittedTransaction,
          TraceEvent.send (TraceTxResponse.new none resp.tx_status)],
         .returned (some (TraceTxResponse.new none resp.tx_status))) := by
  have hIter : traceTxIter confirmations env =
      (some (TraceTxResponse.new none resp.tx_status),
       [RpcCall.getOnlyCommittedTransaction]) := by
    simp [traceTxIter, hPoll, hStatus]
  refine ⟨hIter, ?_⟩
  simp [traceTxLoop, hTop, hIter, hSend]

/-- Witness for C5 at a concrete rejected poll with confirmation depth 3. -/
theorem traceTx_rejected_terminates_immediately_witness :
    traceTxLoop 3 [⟨false, .ok ⟨⟨Status.rejected, none⟩, none⟩, .ok 0, false⟩] =
      ([TraceEvent.rpc RpcCall.getOnlyCommittedTransaction,
        TraceEvent.send (TraceTxResponse.new none ⟨Status.rejected, none⟩)],
       .returned (some (TraceTxResponse.new none ⟨Status.rejected, none⟩))) :=
  (traceTx_rejected_terminates_immediately 3
    ⟨false, .ok ⟨⟨Status.rejected, none⟩, none⟩, .ok 0, false⟩ [] _
    rfl rfl rfl rfl).2

/-- Claim C2: whenever a status poll reports `Committed` at block `B` and the
tip-number query succeeds returning `T`, the iteration is terminal iff
`T >= B + C`; when it is terminal the loop sends the response and returns,
and when `T < B + C` the loop sends nothing and polls again after the
backoff sleep. -/
theorem traceTx_committed_confirmation_depth (confirmations T B : Nat)
    (env : TraceIterEnv) (rest : List TraceIterEnv) (resp : GetTxResponse)
    (hTop : env.closedAtTop = false) (hSend : env.closedAtSend = false)
    (hPoll : env.pollResult = .ok resp)
    (hStatus : resp.tx_status.status = .committed)
    (hBlock : resp.tx_status.block_number = some B)
    (hTip : env.tipResult = .ok T) :
    ((traceTxIter confirmations env).1.isSome ↔ T ≥ B + confirmations)
    ∧ (T ≥ B + confirmations →
        traceTxLoop confirmations (env :: rest) =
          ([TraceEvent.rpc RpcCall.getOnlyCommittedTransaction,
            TraceEvent.rpc RpcCall.getTipBlockNumber,
            TraceEvent.send (TraceTxResponse.new (decodedTransaction resp) resp.tx_status)],
           .returned (some (TraceTxResponse.new (decodedTransaction resp) resp.tx_status))))
    ∧ (T < B + confirmations →
        traceTxLoop confirmations (env :: rest) =
          (TraceEvent.rpc RpcCall.getOnlyCommittedTransaction ::
             TraceEvent.rpc RpcCall.getTipBlockNumber ::
             TraceEvent.sleep :: (traceTxLoop confirmations rest).1,
           (traceTxLoop confirmations rest).2)) := by
  have hIter : traceTxIter confirmations env =
      (if T ≥ B + confirmations then
         some (TraceTxResponse.new (decodedTransaction resp) resp.tx_status)
       else none,
       [RpcCall.getOnlyCommittedTransaction, RpcCall.getTipBlockNumber]) := by
    simp [traceTxIter, hPoll, hStatus, hTip, hBlock]
  refine ⟨?_, ?_, ?_⟩
  · by_cases h : B + confirmations ≤ T <;> simp [hIter, h]
  · intro h
    simp [traceTxLoop, hTop, hIter, ge_iff_le.mp h, hSend]
  · intro h
    simp [traceTxLoop, hTop, hIter, Nat.not_le.mpr h]

/-- Witness for C2 at block 100, depth 6, tip 106 (just deep enough). -/
theorem traceTx_committed_confirmation_depth_witness :
    traceTxLoop 6
      [⟨false, .ok ⟨⟨Status.committed, some 100⟩, some (.ok 7)⟩, .ok 106, false⟩] =
      ([TraceEvent.rpc RpcCall.getOnlyCommittedTransaction,
        TraceEvent.rpc RpcCall.getTipBlockNumber,
        TraceEvent.send (TraceTxResponse.new (some 7) ⟨Status.committed, some 100⟩)],
       .returned (some (TraceTxResponse.new (some 7) ⟨Status.committed, some 100⟩))) :=
  (traceTx_committed_confirmation_depth 6 106 100
    ⟨false, .ok ⟨⟨Status.committed, some 100⟩, some (.ok 7)⟩, .ok 106, false⟩ [] _
    rfl rfl rfl rfl rfl rfl).2.1 (by decide)

/-- Claim C6: when a trace terminates `Confirmed` but the committed
transaction body fails to decode, the terminal response is still sent and
carries `none` for the transaction together with the reported chain
status. -/
theorem traceTx_confirmed_decode_failure_sends_none (confirmations T : Nat)
    (env : TraceIterEnv) (rest : List TraceIterEnv) (resp : GetTxResponse)
    (e : DecodeErr)
    (hTop : env.closedAtTop = false) (hSend : env.closedAtSend = false)
    (hPoll : env.pollResult = .ok resp)
    (hStatus : resp.tx_status.status = .committed)
    (hTx : resp.transaction = some (.error e))
    (hTip : env.tipResult = .ok T)
    (hDepth : T ≥ resp.tx_status.block_number.getD 0 + confirmations) :
    traceTxLoop confirmations (env :: rest) =
      ([TraceEvent.rpc RpcCall.getOnlyCommittedTransaction,
        TraceEvent.rpc RpcCall.getTipBlockNumber,
        TraceEvent.send (TraceTxResponse.new none resp.tx_status)],
       .returned (some (TraceTxResponse.new none resp.tx_status))) := by
  have hDec : decodedTransaction resp = none := by
    simp [decodedTransaction, option_result_transpose, hTx]
  have hIter : traceTxIter confirmations env =
      (some (TraceTxResponse.new none resp.tx_status),
       [RpcCall.getOnlyCommittedTransaction, RpcCall.getTipBlockNumber]) := by
    simp [traceTxIter, hPoll, hStatus, hTip, hDec, ge_iff_le.mp hDepth]
  simp [traceTxLoop, hTop, hIter, hSend]

/-- Witness for C6: committed at block 10, tip 16, depth 6, undecodable
body. -/
theorem traceTx_confirmed_decode_failure_sends_none_witness :
    traceTxLoop 6
      [⟨false, .ok ⟨⟨Status.committed, some 10⟩, some (.error "bad")⟩, .ok 16, false⟩] =
      ([TraceEvent.rpc RpcCall.getOnlyCommittedTransaction,
        TraceEvent.rpc RpcCall.getTipBlockNumber,
        TraceEvent.send (TraceTxResponse.new none ⟨Status.committed, some 10⟩)],
       .returned (some (TraceTxResponse.new none ⟨Status.committed, some 10⟩))) :=
  traceTx_confirmed_decode_failure_sends_none 6 16
    ⟨false, .ok ⟨⟨Status.committed, some 10⟩, some (.error "bad")⟩, .ok 16, false⟩ [] _
    "bad" rfl rfl rfl rfl rfl rfl (by decide)

/-- Claim C9: when a status poll reports `Committed` but carries no block
number, the commit number defaults to `0` (`unwrap_or_default`), so the
iteration is terminal exactly when the tip `T` already satisfies
`T >= confirmations`. -/
theorem traceTx_missing_block_number_defaults_zero (confirmations T : Nat)
    (env : TraceIterEnv) (resp : GetTxResponse)
    (hPoll : env.pollResult = .ok resp)
    (hStatus : resp.tx_status.status = .committed)
    (hBlock : resp.tx_status.block_number = none)
    (hTip : env.tipResult = .ok T) :
    ((traceTxIter confirmations env).1.isSome ↔ T ≥ confirmations)
    ∧ (T ≥ confirmations →
        (traceTxIter confirmations env).1 =
          some (TraceTxResponse.new (decodedTransaction resp) resp.tx_status)) := by
  have hIter : traceTxIter confirmations env =
      (if T ≥ confirmations then
         some (TraceTxResponse.new (decodedTransaction resp) resp.tx_status)
       else none,
       [RpcCall.getOnlyCommittedTransaction, RpcCall.getTipBlockNumber]) := by
    simp [traceTxIter, hPoll, hStatus, hTip, hBlock]
  refine ⟨?_, ?_⟩
  · by_cases h : confirmations ≤ T <;> simp [hIter, h]
  · intro h
    simp [hIter, ge_iff_le.mp h]

/-- Witness for C9: committed with no block number, tip 6, depth 6. -/
theorem traceTx_missing_block_number_defaults_zero_witness :
    ((traceTxIter 6 ⟨false, .ok ⟨⟨Status.committed, none⟩, none⟩, .ok 6, false⟩).1.isSome
      ↔ (6 : Nat) ≥ 6) :=
  (traceTx_missing_block_number_defaults_zero 6 6
    ⟨false, .ok ⟨⟨Status.committed, none⟩, none⟩, .ok 6, false⟩ _
    rfl rfl rfl rfl).1

/-- Claim C3: if every iteration before some point is non-terminal with the
reply channel open, and the channel is closed at that point, the tracer
loop stops right there — the closure is observed at the top of the
iteration, before any RPC of that iteration — and the whole run performs no
send at all. -/
theorem traceTx_cancellation_halts (confirmations : Nat)
    (pre : List TraceIterEnv) (envC : TraceIterEnv) (post : List TraceIterEnv)
    (hPre : ∀ e ∈ pre, e.closedAtTop = false ∧ (traceTxIter confirmations e).1 = none)
    (hClosed : envC.closedAtTop = true) :
    traceTxLoop confirmations (pre ++ envC :: post) =
      ((pre.map (fun e => (traceTxIter confirmations e).2.map TraceEvent.rpc
          ++ [TraceEvent.sleep])).flatten,
       .cancelled)
    ∧ ∀ r, TraceEvent.send r ∉ (traceTxLoop confirmations (pre ++ envC :: post)).1 := by
  have hEq : ∀ pre : List TraceIterEnv,
      (∀ e ∈ pre, e.closedAtTop = false ∧ (traceTxIter confirmations e).1 = none) →
      traceTxLoop confirmations (pre ++ envC :: post) =
        ((pre.map (fun e => (traceTxIter confirmations e).2.map TraceEvent.rpc
            ++ [TraceEvent.sleep])).flatten,
         .cancelled) := by
    intro pre
    induction pre with
    | nil => intro _; simp [traceTxLoop, hClosed]
    | cons e pre ih =>
      intro h
      obtain ⟨hTop, hNone⟩ := h e (List.mem_cons_self e pre)
      have hRest := ih (fun x hx => h x (List.mem_cons_of_mem e hx))
      simp [traceTxLoop, hTop, hNone, hRest]
  refine ⟨hEq pre hPre, ?_⟩
  intro r
  rw [hEq pre hPre]
  simp [List.mem_flatten, List.mem_map]

/-- Witness for C3: one failed poll, then the caller closes the channel. -/
theorem traceTx_cancellation_halts_witness :
    traceTxLoop 1
      [⟨false, .error (.other "down"), .ok 0, false⟩,
       ⟨true, .ok ⟨⟨Status.pending, none⟩, none⟩, .ok 0, false⟩] =
      ([TraceEvent.rpc RpcCall.getOnlyCommittedTransaction, TraceEvent.sleep],
       .cancelled) :=
  (traceTx_cancellation_halts 1
    [⟨false, .error (.other "down"), .ok 0, false⟩]
    ⟨true, .ok ⟨⟨Status.pending, none⟩, none⟩, .ok 0, false⟩ []
    (by
      intro e he
      rw [List.mem_singleton] at he
      subst he
      exact ⟨rfl, rfl⟩)
    rfl).1

/-- Counterexample to claim C4 as stated: the `GetCurrentBlockNumber` arm
performs its send even when the reply channel is already closed — it never
consults the channel state, so it does not check that the channel is open
before sending. -/
theorem getCurrentBlockNumber_sends_when_closed :
    (handleGetCurrentBlockNumber true (.ok 5)).1 = [BlockNumberEvent.sent (.ok 5)]
    ∧ (handleGetCurrentBlockNumber true (.ok 5)).1 ≠ [] :=
  ⟨rfl, by simp [handleGetCurrentBlockNumber]⟩

/-- Claim C4, amended: `Fund`, `Sign`, `SendTx` and the `TraceTx` loop check
the reply channel immediately before sending and send nothing when it is
closed, while `GetCurrentBlockNumber` sends unconditionally without
checking; in every arm the send result is discarded, so a closed channel
never makes the handler return an error. -/
theorem reply_channel_check_amended
    (confirmations : Nat) (closed2 closed : Bool)
    (fulfill : FundingTx → FundingRequest → FundingContext → FundingExclusion →
      Except FundingError FundingTx × FundingExclusion)
    (sign : FundingTx → SecretKey → String → Except FundingError FundingTx)
    (st : CkbChainState) (tx : FundingTx) (request : FundingRequest)
    (r : Except RpcError Unit) (blockResult : Except RpcError Nat)
    (env : TraceIterEnv) (rest : List TraceIterEnv) (resp : TraceTxResponse)
    (hTop : env.closedAtTop = false) (hSendClosed : env.closedAtSend = true)
    (hIter : (traceTxIter confirmations env).1 = some resp) :
    handleFund true closed2 fulfill st tx request = (st, [], .ok ())
    ∧ (handleFund false true fulfill st tx request).2 = ([FundEvent.fulfillCalled], .ok ())
    ∧ handleSign true closed2 sign st tx = ([], .ok ())
    ∧ handleSign false true sign st tx = ([SignEvent.signCalled], .ok ())
    ∧ handleSendTx true r = ([], .ok ())
    ∧ handleGetCurrentBlockNumber closed blockResult =
        ([BlockNumberEvent.sent blockResult], .ok ())
    ∧ traceTxLoop confirmations ({ env with closedAtTop := true } :: rest) = ([], .cancelled)
    ∧ traceTxLoop confirmations (env :: rest) =
        ((traceTxIter confirmations env).2.map TraceEvent.rpc, .returned none) := by
  refine ⟨rfl, rfl, rfl, rfl, rfl, rfl, by simp [traceTxLoop], ?_⟩
  simp [traceTxLoop, hTop, hIter, hSendClosed]

/-- Witness for C4 (amended): a terminal rejected poll whose reply channel
closed between the guard and the send. -/
theorem reply_channel_check_amended_witness :
    traceTxLoop 0 [⟨false, .ok ⟨⟨Status.rejected, none⟩, none⟩, .ok 0, true⟩] =
      ([TraceEvent.rpc RpcCall.getOnlyCommittedTransaction], .returned none) :=
  (reply_channel_check_amended 0 false false
    (fun tx _ _ ex => (.ok tx, ex)) (fun tx _ _ => .ok tx)
    ⟨⟨"url", .ok 1⟩, 1, 0, FundingExclusion.empty⟩ ⟨0⟩ ⟨0⟩
    (.ok ()) (.ok 0)
    ⟨false, .ok ⟨⟨Status.rejected, none⟩, none⟩, .ok 0, true⟩ []
    (TraceTxResponse.new none ⟨Status.rejected, none⟩)
    rfl rfl rfl).2.2.2.2.2.2.2

/-- Claim C8: at startup, whenever the secret key materializes, the actor
state's funding-source lock script is the signature-lock script template
instantiated with the first 20 bytes of the BLAKE2b-256 hash of the
serialized secp256k1 public key. -/
theorem pre_start_funding_lock_script (ops : CryptoOps) (config : CkbConfig)
    (sk : SecretKey) (h : config.read_secret_key = .ok sk) :
    ∃ st, pre_start ops config = .ok st
      ∧ st.funding_source_lock_script =
          ops.get_script_by_contract Contract.Secp256k1Lock
            ((ops.blake2b_256 (ops.serialize (ops.public_key sk))).take 20)
      ∧ st.config = config ∧ st.secret_key = sk
      ∧ st.funding_exclusion = FundingExclusion.empty := by
  refine ⟨{ config := config
            secret_key := sk
            funding_source_lock_script :=
              ops.get_script_by_contract Contract.Secp256k1Lock
                ((ops.blake2b_256 (ops.serialize (ops.public_key sk))).take 20)
            funding_exclusion := FundingExclusion.empty },
    ?_, rfl, rfl, rfl, rfl⟩
  simp [pre_start, h]

/-- Witness for C8 with concrete crypto operations and key `3`. -/
theorem pre_start_funding_lock_script_witness :
    ∃ st,
      pre_start
        ⟨fun k => k + 1, fun p => [p, p], fun l => l ++ [9], fun _ args => args.length⟩
        ⟨"u", .ok 3⟩ = .ok st
      ∧ st.funding_source_lock_script = 3
      ∧ st.config = ⟨"u", .ok 3⟩ ∧ st.secret_key = 3
      ∧ st.funding_exclusion = FundingExclusion.empty :=
  pre_start_funding_lock_script
    ⟨fun k => k + 1, fun p => [p, p], fun l => l ++ [9], fun _ args => args.length⟩
    ⟨"u", .ok 3⟩ 3 rfl
